import Mathlib

/-!
Lacework account resource group: lifecycle operations.

A shallow embedding of `lacework/resource_lacework_resource_group_account.go`.

The four lifecycle functions of the resource receive a `*schema.ResourceData`
value `d` and the API client.  They read attributes with `d.Get` / `d.Id`,
call one method of `lacework.V2.ResourceGroups`, and on success write
attributes back with `d.Set` / `d.SetId`.  Here `d` is a record that is passed
in and returned, the client is a record of functions, and every operation
returns the resource data after the call together with the Go `error`
(`none` for `nil`).  `d.Set` returns an error when the value does not have the
type of the attribute; the operations discard that error, as the source does.
The `log.Printf` calls have no effect on `d` or on the returned error and are
left out.
-/

namespace Lacework

/-! ## Data model -/

/-- Go `error` values returned by the API client. -/
structure GoError where
  msg : String
  deriving DecidableEq, Repr

/-- The `props` of an account resource group on the wire
(`api.LwAccountResourceGroupProps`).  `LastUpdated` is a Go `int`, the time in
milliseconds; the other fields are strings and a `[]string`. -/
structure LwAccountResourceGroupProps where
  Description : String := ""
  LwAccounts : List String := []
  UpdatedBy : String := ""
  LastUpdated : Int := 0
  deriving DecidableEq, Repr

/-- The wire record exchanged with the backend (`api.ResourceGroupData` on the
way out, `response.Data` on the way back), with the fields that the operations
read and write.  `Enabled` is the integer flag and `Type_` is the field `Type`.
The operations never touch `IsDefault`; it is the `is_default` of the Remote
Entity Record of the spec, a read-only boolean. -/
structure ResourceGroupData where
  Guid : String := ""
  IsDefault : Bool := false
  ResourceGuid : String := ""
  Name : String := ""
  Type_ : String := ""
  Enabled : Int := 0
  Props : LwAccountResourceGroupProps := {}
  deriving DecidableEq, Repr

/-- The response of the create, get and update calls; the operations read
`response.Data`. -/
structure LwAccountResourceGroupResponse where
  Data : ResourceGroupData
  deriving DecidableEq, Repr

/-- The part of `lacework.V2.ResourceGroups` the resource uses.  A call
returns either a response or an error. -/
structure Client where
  CreateLwAccount : ResourceGroupData → Except GoError LwAccountResourceGroupResponse
  GetLwAccount : String → Except GoError LwAccountResourceGroupResponse
  UpdateLwAccount : ResourceGroupData → Except GoError LwAccountResourceGroupResponse
  Delete : String → Option GoError

/-- The view of `*schema.ResourceData` that the operations use: the identity
(`d.Id()` / `d.SetId`) and one field per attribute of the schema
(`d.Get` / `d.Set`), typed as the schema declares them.  The attribute `type`
is the field `type_`.  When an operation starts, the attributes that are not
`Computed` hold the configuration and the others hold the prior state. -/
structure ResourceData where
  id : String := ""
  name : String := ""
  enabled : Bool := false
  description : String := ""
  accounts : List String := []
  lacework_account_id : String := ""
  last_updated : String := ""
  updated_by : String := ""
  type_ : String := ""
  is_default : Bool := false
  deriving DecidableEq, Repr

/-- The authored configuration of the resource: the attributes of the schema
that are not `Computed`.  `enabled` is `Optional`, so it may be absent. -/
structure Config where
  name : String
  enabled : Option Bool := none
  description : String := ""
  accounts : List String
  deriving DecidableEq, Repr

/-- The Go values that the operations pass to `d.Set` as `interface{}`. -/
inductive Value where
  | string (s : String)
  | int (n : Int)
  | bool (b : Bool)
  | stringList (l : List String)
  deriving DecidableEq, Repr

/-! ## Helpers used by the operations -/

/-- The method `d.SetId`. -/
def ResourceData.SetId (d : ResourceData) (v : String) : ResourceData :=
  { d with id := v }

/-- The method `d.Set(key, value)` of the terraform-plugin-sdk (outside src/) on
the schema of this resource (lines 21-79).  The value is decoded strictly into
the type that the schema declares for the attribute: a `TypeString` attribute
takes a Go string, a `TypeBool` attribute a bool, the `TypeList` of strings a
`[]string`.  A value of another type, or an unknown key, is refused: the
attribute keeps its value and an error is returned. -/
def ResourceData.Set (d : ResourceData) (key : String) (value : Value) :
    ResourceData × Option GoError :=
  match key, value with
  | "name", .string s => ({ d with name := s }, none)
  | "enabled", .bool b => ({ d with enabled := b }, none)
  | "description", .string s => ({ d with description := s }, none)
  | "accounts", .stringList l => ({ d with accounts := l }, none)
  | "lacework_account_id", .string s => ({ d with lacework_account_id := s }, none)
  | "last_updated", .string s => ({ d with last_updated := s }, none)
  | "updated_by", .string s => ({ d with updated_by := s }, none)
  | "type", .string s => ({ d with type_ := s }, none)
  | "is_default", .bool b => ({ d with is_default := b }, none)
  | _, _ => (d, some ⟨"value does not have the type of the attribute"⟩)

/-- Go `unicode.IsSpace`: the white space characters that `strings.TrimSpace`
removes. -/
def isSpace (c : Char) : Bool :=
  let n := c.toNat
  n == 0x09 || n == 0x0A || n == 0x0B || n == 0x0C || n == 0x0D || n == 0x20 ||
  n == 0x85 || n == 0xA0 || n == 0x1680 || (0x2000 ≤ n && n ≤ 0x200A) ||
  n == 0x2028 || n == 0x2029 || n == 0x202F || n == 0x205F || n == 0x3000

/-- Go `strings.TrimSpace`: the string without its leading and trailing white
space. -/
def TrimSpace (s : String) : String :=
  String.mk ((s.data.dropWhile isSpace).rdropWhile isSpace)

/-- The `StateFunc` of the element schema of `accounts` (schema lines 42-44):
`strings.TrimSpace(val.(string))`. -/
def accountsStateFunc (val : String) : String :=
  TrimSpace val

/-- The `Default` of the attribute `enabled` in the schema (line 30). -/
def enabledDefault : Bool := true

/-- The resource data that the configuration engine (terraform-plugin-sdk,
outside src/) hands to Create and Update.  The attributes that are not
`Computed` carry the configuration as `d.Get` returns it: the `Default` for an
absent `enabled`, and the entries of `accounts` as they were written (the
element `StateFunc` is applied to the stored state, not to what `d.Get`
returns).  The identity and the `Computed` attributes carry the prior state. -/
def ResourceData.plan (prior : ResourceData) (c : Config) : ResourceData :=
  { prior with
    name := c.name
    enabled := c.enabled.getD enabledDefault
    description := c.description
    accounts := c.accounts }

/-- Modelled from the spec: the helper `castAttributeToStringSlice(d, "accounts")`
of this package (outside src/), which reads the list attribute as a `[]string`
("copies each accounts entry"). -/
def castAttributeToStringSlice (d : ResourceData) : List String :=
  d.accounts

/-- The constant `api.LwAccountResourceGroup.String()` of the go-sdk. -/
def LwAccountResourceGroup : String := "LW_ACCOUNT"

/-- Modelled from the spec: the go-sdk constructor `api.NewResourceGroup`
(outside src/): a wire record with the given name, type and props whose
`Enabled` flag is 1 ("defaulting to 1/true when unset"). -/
def NewResourceGroup (name : String) (iType : String)
    (props : LwAccountResourceGroupProps) : ResourceGroupData :=
  { Name := name, Type_ := iType, Enabled := 1, Props := props }

/-! ## The lifecycle operations -/

/-- The payload built by `resourceLaceworkResourceGroupLwAccountCreate`
(lines 86-95) before the call to `CreateLwAccount`. -/
def createData (d : ResourceData) : ResourceGroupData :=
  let data := NewResourceGroup d.name LwAccountResourceGroup
    { Description := d.description, LwAccounts := castAttributeToStringSlice d }
  if !d.enabled then { data with Enabled := 0 } else data

/-- The function `resourceLaceworkResourceGroupLwAccountCreate` (lines 83-116).
The error that each `d.Set` returns is discarded, as in the source. -/
def resourceLaceworkResourceGroupLwAccountCreate (d : ResourceData) (lacework : Client) :
    ResourceData × Option GoError :=
  let data := createData d
  match lacework.CreateLwAccount data with
  | .error err => (d, some err)
  | .ok response =>
    let d := d.SetId response.Data.ResourceGuid
    let d := (d.Set "name" (.string response.Data.Name)).1
    let d := (d.Set "lacework_account_id" (.string response.Data.Guid)).1
    let d := (d.Set "enabled" (.bool (decide (response.Data.Enabled = 1)))).1
    let d := (d.Set "description" (.string response.Data.Props.Description)).1
    let d := (d.Set "last_updated" (.int response.Data.Props.LastUpdated)).1
    let d := (d.Set "updated_by" (.string response.Data.Props.UpdatedBy)).1
    let d := (d.Set "type" (.string response.Data.Type_)).1
    (d, none)

/-- The function `resourceLaceworkResourceGroupLwAccountRead` (lines 118-141).
The error that each `d.Set` returns is discarded, as in the source. -/
def resourceLaceworkResourceGroupLwAccountRead (d : ResourceData) (lacework : Client) :
    ResourceData × Option GoError :=
  match lacework.GetLwAccount d.id with
  | .error err => (d, some err)
  | .ok response =>
    let d := d.SetId response.Data.ResourceGuid
    let d := (d.Set "name" (.string response.Data.Name)).1
    let d := (d.Set "lacework_account_id" (.string response.Data.Guid)).1
    let d := (d.Set "enabled" (.bool (decide (response.Data.Enabled = 1)))).1
    let d := (d.Set "description" (.string response.Data.Props.Description)).1
    let d := (d.Set "last_updated" (.int response.Data.Props.LastUpdated)).1
    let d := (d.Set "updated_by" (.string response.Data.Props.UpdatedBy)).1
    let d := (d.Set "type" (.string response.Data.Type_)).1
    let d := (d.Set "accounts" (.stringList response.Data.Props.LwAccounts)).1
    (d, none)

/-- The payload built by `resourceLaceworkResourceGroupLwAccountUpdate`
(lines 146-157) before the call to `UpdateLwAccount`. -/
def updateData (d : ResourceData) : ResourceGroupData :=
  let data := NewResourceGroup d.name LwAccountResourceGroup
    { Description := d.description, LwAccounts := castAttributeToStringSlice d }
  let data := if !d.enabled then { data with Enabled := 0 } else data
  { data with ResourceGuid := d.id }

/-- The function `resourceLaceworkResourceGroupLwAccountUpdate` (lines 143-176).
The error that each `d.Set` returns is discarded, as in the source. -/
def resourceLaceworkResourceGroupLwAccountUpdate (d : ResourceData) (lacework : Client) :
    ResourceData × Option GoError :=
  let data := updateData d
  match lacework.UpdateLwAccount data with
  | .error err => (d, some err)
  | .ok response =>
    let d := d.SetId response.Data.ResourceGuid
    let d := (d.Set "name" (.string response.Data.Name)).1
    let d := (d.Set "enabled" (.bool (decide (response.Data.Enabled = 1)))).1
    let d := (d.Set "last_updated" (.int response.Data.Props.LastUpdated)).1
    let d := (d.Set "updated_by" (.string response.Data.Props.UpdatedBy)).1
    let d := (d.Set "type" (.string response.Data.Type_)).1
    (d, none)

/-- The function `resourceLaceworkResourceGroupLwAccountDelete` (lines 178-191). -/
def resourceLaceworkResourceGroupLwAccountDelete (d : ResourceData) (lacework : Client) :
    ResourceData × Option GoError :=
  match lacework.Delete d.id with
  | some err => (d, some err)
  | none => (d, none)

/-! ## Concrete data used in the examples -/

/-- The configuration of the Create scenario. -/
def configGroupA : Config :=
  { name := "Group A", enabled := some true, accounts := ["acct1"] }

/-- The response of the Create scenario. -/
def responseG1 : LwAccountResourceGroupResponse :=
  { Data := { ResourceGuid := "G1", Name := "Group A", Enabled := 1,
              Props := { LwAccounts := ["acct1"] } } }

/-- A client whose every call fails. -/
def failingClient (e : GoError) : Client :=
  { CreateLwAccount := fun _ => .error e
    GetLwAccount := fun _ => .error e
    UpdateLwAccount := fun _ => .error e
    Delete := fun _ => some e }

/-- A client whose create, get and update calls answer `r` and whose delete
succeeds. -/
def constClient (r : LwAccountResourceGroupResponse) : Client :=
  { CreateLwAccount := fun _ => .ok r
    GetLwAccount := fun _ => .ok r
    UpdateLwAccount := fun _ => .ok r
    Delete := fun _ => none }

/-- The response of the Update scenario: the name is changed and the response
carries no accounts. -/
def responseA2 : LwAccountResourceGroupResponse :=
  { Data := { ResourceGuid := "G1", Name := "Group A2", Enabled := 1 } }

/-- The local state after the Create scenario. -/
def stateAfterCreateA : ResourceData :=
  (resourceLaceworkResourceGroupLwAccountCreate (ResourceData.plan {} configGroupA)
    (constClient responseG1)).1

/-- The resource data handed to Update in the Update scenario. -/
def updateInputA2 : ResourceData :=
  ResourceData.plan stateAfterCreateA { configGroupA with name := "Group A2" }

/-- A local state whose identity is "G1". -/
def stateG1 : ResourceData :=
  { id := "G1", name := "Group A", enabled := true, accounts := ["acct1"] }

/-- A response whose `ResourceGuid` is "G2". -/
def responseG2 : LwAccountResourceGroupResponse :=
  { Data := { ResourceGuid := "G2", Name := "Group A", Enabled := 1,
              Props := { LwAccounts := ["acct1"] } } }

/-- A fixed remote store: under "G1" it holds a record whose `ResourceGuid` is
"G2" and whose name is "A"; under "G2" a record whose name is "B"; nothing
else. -/
def redirectingStore : Client :=
  { CreateLwAccount := fun _ => .error ⟨"unused"⟩
    GetLwAccount := fun guid =>
      if guid = "G1" then .ok { Data := { ResourceGuid := "G2", Name := "A" } }
      else if guid = "G2" then .ok { Data := { ResourceGuid := "G2", Name := "B" } }
      else .error ⟨"NotFound"⟩
    UpdateLwAccount := fun _ => .error ⟨"unused"⟩
    Delete := fun _ => none }

/-- A response for a default resource group. -/
def responseDefault : LwAccountResourceGroupResponse :=
  { Data := { ResourceGuid := "G1", Name := "Group A", Enabled := 1, IsDefault := true,
              Props := { LwAccounts := ["acct1"] } } }

/-- The response of the Create scenario with the fields that the backend
assigns: the actor and the time of the last update in milliseconds. -/
def responseG1Stamped : LwAccountResourceGroupResponse :=
  { Data := { ResourceGuid := "G1", Name := "Group A", Enabled := 1, Type_ := "LW_ACCOUNT",
              Props := { LwAccounts := ["acct1"], UpdatedBy := "alice",
                         LastUpdated := 1631234567890 } } }

/-- The response of the Update scenario with the fields that the backend
assigns; it carries no accounts. -/
def responseA2Stamped : LwAccountResourceGroupResponse :=
  { Data := { ResourceGuid := "G1", Name := "Group A2", Enabled := 1, Type_ := "LW_ACCOUNT",
              Props := { UpdatedBy := "alice", LastUpdated := 1631234567890 } } }

/-- Resource data whose configured accounts carry surrounding white space. -/
def dataPaddedAccounts : ResourceData :=
  { id := "G1", name := "Group A", enabled := true, accounts := [" acct1 ", "acct2"] }

/-- A client that answers create and update with the record it was sent. -/
def echoClient : Client :=
  { CreateLwAccount := fun data => .ok { Data := data }
    GetLwAccount := fun _ => .error ⟨"NotFound"⟩
    UpdateLwAccount := fun data => .ok { Data := data }
    Delete := fun _ => none }

/-! ## Equations of the operations -/

theorem create_ok (d : ResourceData) (lacework : Client) (r : LwAccountResourceGroupResponse)
    (h : lacework.CreateLwAccount (createData d) = .ok r) :
    resourceLaceworkResourceGroupLwAccountCreate d lacework =
      ({ d with
          id := r.Data.ResourceGuid
          name := r.Data.Name
          lacework_account_id := r.Data.Guid
          enabled := decide (r.Data.Enabled = 1)
          description := r.Data.Props.Description
          updated_by := r.Data.Props.UpdatedBy
          type_ := r.Data.Type_ }, none) := by
  simp only [resourceLaceworkResourceGroupLwAccountCreate, h]
  rfl

theorem create_error (d : ResourceData) (lacework : Client) (e : GoError)
    (h : lacework.CreateLwAccount (createData d) = .error e) :
    resourceLaceworkResourceGroupLwAccountCreate d lacework = (d, some e) := by
  simp [resourceLaceworkResourceGroupLwAccountCreate, h]

theorem read_ok (d : ResourceData) (lacework : Client) (r : LwAccountResourceGroupResponse)
    (h : lacework.GetLwAccount d.id = .ok r) :
    resourceLaceworkResourceGroupLwAccountRead d lacework =
      ({ d with
          id := r.Data.ResourceGuid
          name := r.Data.Name
          lacework_account_id := r.Data.Guid
          enabled := decide (r.Data.Enabled = 1)
          description := r.Data.Props.Description
          updated_by := r.Data.Props.UpdatedBy
          type_ := r.Data.Type_
          accounts := r.Data.Props.LwAccounts }, none) := by
  simp only [resourceLaceworkResourceGroupLwAccountRead, h]
  rfl

theorem read_error (d : ResourceData) (lacework : Client) (e : GoError)
    (h : lacework.GetLwAccount d.id = .error e) :
    resourceLaceworkResourceGroupLwAccountRead d lacework = (d, some e) := by
  simp [resourceLaceworkResourceGroupLwAccountRead, h]

theorem update_ok (d : ResourceData) (lacework : Client) (r : LwAccountResourceGroupResponse)
    (h : lacework.UpdateLwAccount (updateData d) = .ok r) :
    resourceLaceworkResourceGroupLwAccountUpdate d lacework =
      ({ d with
          id := r.Data.ResourceGuid
          name := r.Data.Name
          enabled := decide (r.Data.Enabled = 1)
          updated_by := r.Data.Props.UpdatedBy
          type_ := r.Data.Type_ }, none) := by
  simp only [resourceLaceworkResourceGroupLwAccountUpdate, h]
  rfl

theorem update_error (d : ResourceData) (lacework : Client) (e : GoError)
    (h : lacework.UpdateLwAccount (updateData d) = .error e) :
    resourceLaceworkResourceGroupLwAccountUpdate d lacework = (d, some e) := by
  simp [resourceLaceworkResourceGroupLwAccountUpdate, h]

theorem delete_error (d : ResourceData) (lacework : Client) (e : GoError)
    (h : lacework.Delete d.id = some e) :
    resourceLaceworkResourceGroupLwAccountDelete d lacework = (d, some e) := by
  simp [resourceLaceworkResourceGroupLwAccountDelete, h]

theorem createData_enabled (d : ResourceData) :
    (createData d).Enabled = if d.enabled then 1 else 0 := by
  cases h : d.enabled <;> simp [createData, NewResourceGroup, h]

theorem updateData_enabled (d : ResourceData) :
    (updateData d).Enabled = if d.enabled then 1 else 0 := by
  cases h : d.enabled <;> simp [updateData, NewResourceGroup, h]

theorem createData_accounts (d : ResourceData) :
    (createData d).Props.LwAccounts = d.accounts := by
  cases h : d.enabled <;> simp [createData, NewResourceGroup, castAttributeToStringSlice, h]

theorem updateData_accounts (d : ResourceData) :
    (updateData d).Props.LwAccounts = d.accounts := by
  cases h : d.enabled <;> simp [updateData, NewResourceGroup, castAttributeToStringSlice, h]

/-! ## The attribute `last_updated` -/

theorem set_last_updated_int (d : ResourceData) (n : Int) :
    d.Set "last_updated" (.int n)
      = (d, some ⟨"value does not have the type of the attribute"⟩) := by
  rfl

theorem create_keeps_last_updated (d : ResourceData) (lacework : Client) :
    (resourceLaceworkResourceGroupLwAccountCreate d lacework).1.last_updated
      = d.last_updated := by
  cases h : lacework.CreateLwAccount (createData d) with
  | error e => rw [create_error d lacework e h]
  | ok r => rw [create_ok d lacework r h]

theorem read_keeps_last_updated (d : ResourceData) (lacework : Client) :
    (resourceLaceworkResourceGroupLwAccountRead d lacework).1.last_updated
      = d.last_updated := by
  cases h : lacework.GetLwAccount d.id with
  | error e => rw [read_error d lacework e h]
  | ok r => rw [read_ok d lacework r h]

theorem update_keeps_last_updated (d : ResourceData) (lacework : Client) :
    (resourceLaceworkResourceGroupLwAccountUpdate d lacework).1.last_updated
      = d.last_updated := by
  cases h : lacework.UpdateLwAccount (updateData d) with
  | error e => rw [update_error d lacework e h]
  | ok r => rw [update_ok d lacework r h]

/-! ## Update refreshes an allow-list of fields -/

/-- C1, the code at the failing input: after Create of "Group A" with accounts
["acct1"], an Update whose response has name "Group A2", actor "alice", time
1631234567890 and no accounts succeeds; it keeps `description` and `accounts`
and sets `name`, `type`, `updated_by` and `enabled` from the response, but the
`d.Set` of `last_updated` is refused (an `int` for a `TypeString` attribute),
so `last_updated` is still unset. -/
theorem update_scenario_last_updated_unset :
    updateInputA2.last_updated = "" ∧
    responseA2Stamped.Data.Props.LastUpdated = 1631234567890 ∧
    (updateInputA2.Set "last_updated" (.int responseA2Stamped.Data.Props.LastUpdated)).2
      ≠ none ∧
    (resourceLaceworkResourceGroupLwAccountUpdate updateInputA2 (constClient responseA2Stamped)).2 = none ∧
    (resourceLaceworkResourceGroupLwAccountUpdate updateInputA2 (constClient responseA2Stamped)).1.description = updateInputA2.description ∧
    (resourceLaceworkResourceGroupLwAccountUpdate updateInputA2 (constClient responseA2Stamped)).1.accounts = ["acct1"] ∧
    (resourceLaceworkResourceGroupLwAccountUpdate updateInputA2 (constClient responseA2Stamped)).1.name = "Group A2" ∧
    (resourceLaceworkResourceGroupLwAccountUpdate updateInputA2 (constClient responseA2Stamped)).1.type_ = "LW_ACCOUNT" ∧
    (resourceLaceworkResourceGroupLwAccountUpdate updateInputA2 (constClient responseA2Stamped)).1.updated_by = "alice" ∧
    (resourceLaceworkResourceGroupLwAccountUpdate updateInputA2 (constClient responseA2Stamped)).1.enabled = true ∧
    (resourceLaceworkResourceGroupLwAccountUpdate updateInputA2 (constClient responseA2Stamped)).1.last_updated = "" := by
  decide

/-! ## Failures of the adapter -/

/-- C2: when the call to the adapter fails with error `e`, each of Create,
Read, Update and Delete returns exactly `e` and hands back the resource data
unchanged, identity included; so a failed Create leaves an unset identity
unset. -/
theorem adapter_error_is_returned_and_state_kept (d : ResourceData) (lacework : Client)
    (e : GoError) :
    (lacework.CreateLwAccount (createData d) = .error e →
      resourceLaceworkResourceGroupLwAccountCreate d lacework = (d, some e)) ∧
    (lacework.GetLwAccount d.id = .error e →
      resourceLaceworkResourceGroupLwAccountRead d lacework = (d, some e)) ∧
    (lacework.UpdateLwAccount (updateData d) = .error e →
      resourceLaceworkResourceGroupLwAccountUpdate d lacework = (d, some e)) ∧
    (lacework.Delete d.id = some e →
      resourceLaceworkResourceGroupLwAccountDelete d lacework = (d, some e)) ∧
    (lacework.CreateLwAccount (createData d) = .error e → d.id = "" →
      (resourceLaceworkResourceGroupLwAccountCreate d lacework).1.id = "") := by
  refine ⟨create_error d lacework e, read_error d lacework e, update_error d lacework e,
    delete_error d lacework e, ?_⟩
  intro h hid
  rw [create_error d lacework e h]
  exact hid

/-- C2 at a client whose every call fails with "TransportError". -/
theorem adapter_error_is_returned_and_state_kept_witness :
    resourceLaceworkResourceGroupLwAccountCreate (ResourceData.plan {} configGroupA)
        (failingClient ⟨"TransportError"⟩)
      = (ResourceData.plan {} configGroupA, some ⟨"TransportError"⟩) ∧
    resourceLaceworkResourceGroupLwAccountRead stateG1 (failingClient ⟨"TransportError"⟩)
      = (stateG1, some ⟨"TransportError"⟩) ∧
    resourceLaceworkResourceGroupLwAccountUpdate stateG1 (failingClient ⟨"TransportError"⟩)
      = (stateG1, some ⟨"TransportError"⟩) ∧
    resourceLaceworkResourceGroupLwAccountDelete stateG1 (failingClient ⟨"TransportError"⟩)
      = (stateG1, some ⟨"TransportError"⟩) ∧
    (resourceLaceworkResourceGroupLwAccountCreate (ResourceData.plan {} configGroupA)
        (failingClient ⟨"TransportError"⟩)).1.id = "" :=
  ⟨(adapter_error_is_returned_and_state_kept (ResourceData.plan {} configGroupA)
      (failingClient ⟨"TransportError"⟩) ⟨"TransportError"⟩).1 rfl,
   (adapter_error_is_returned_and_state_kept stateG1
      (failingClient ⟨"TransportError"⟩) ⟨"TransportError"⟩).2.1 rfl,
   (adapter_error_is_returned_and_state_kept stateG1
      (failingClient ⟨"TransportError"⟩) ⟨"TransportError"⟩).2.2.1 rfl,
   (adapter_error_is_returned_and_state_kept stateG1
      (failingClient ⟨"TransportError"⟩) ⟨"TransportError"⟩).2.2.2.1 rfl,
   (adapter_error_is_returned_and_state_kept (ResourceData.plan {} configGroupA)
      (failingClient ⟨"TransportError"⟩) ⟨"TransportError"⟩).2.2.2.2 rfl rfl⟩

/-! ## The identity after Read and Update -/

/-- C3, as stated, fails: Read and Update of a state with identity "G1"
against a response whose `ResourceGuid` is "G2" succeed and leave the identity
"G2". -/
theorem identity_unchanged_counterexample :
    stateG1.id = "G1" ∧
    (resourceLaceworkResourceGroupLwAccountRead stateG1 (constClient responseG2)).2 = none ∧
    (resourceLaceworkResourceGroupLwAccountRead stateG1 (constClient responseG2)).1.id = "G2" ∧
    (resourceLaceworkResourceGroupLwAccountRead stateG1 (constClient responseG2)).1.id
      ≠ stateG1.id ∧
    (resourceLaceworkResourceGroupLwAccountUpdate stateG1 (constClient responseG2)).2 = none ∧
    (resourceLaceworkResourceGroupLwAccountUpdate stateG1 (constClient responseG2)).1.id = "G2" ∧
    (resourceLaceworkResourceGroupLwAccountUpdate stateG1 (constClient responseG2)).1.id
      ≠ stateG1.id := by
  decide

/-- C3, amended: after a successful Read and after a successful Update the
identity of the local state is the `ResourceGuid` of the response, so it is
still the identity `g` it had before exactly when the response carries
`ResourceGuid = g`. -/
theorem identity_is_response_guid (d : ResourceData) (lacework : Client)
    (r : LwAccountResourceGroupResponse) :
    (lacework.GetLwAccount d.id = .ok r →
      (resourceLaceworkResourceGroupLwAccountRead d lacework).1.id = r.Data.ResourceGuid ∧
      ((resourceLaceworkResourceGroupLwAccountRead d lacework).1.id = d.id
        ↔ r.Data.ResourceGuid = d.id)) ∧
    (lacework.UpdateLwAccount (updateData d) = .ok r →
      (resourceLaceworkResourceGroupLwAccountUpdate d lacework).1.id = r.Data.ResourceGuid ∧
      ((resourceLaceworkResourceGroupLwAccountUpdate d lacework).1.id = d.id
        ↔ r.Data.ResourceGuid = d.id)) := by
  constructor
  · intro h
    rw [read_ok d lacework r h]
    simp
  · intro h
    rw [update_ok d lacework r h]
    simp

/-- C3, amended, at a response that carries the identity of the state: Read
and Update keep the identity "G1". -/
theorem identity_is_response_guid_witness :
    (constClient responseG1).GetLwAccount stateG1.id = .ok responseG1 ∧
    (constClient responseG1).UpdateLwAccount (updateData stateG1) = .ok responseG1 ∧
    (resourceLaceworkResourceGroupLwAccountRead stateG1 (constClient responseG1)).1.id
      = stateG1.id ∧
    (resourceLaceworkResourceGroupLwAccountUpdate stateG1 (constClient responseG1)).1.id
      = stateG1.id :=
  ⟨rfl, rfl,
   (((identity_is_response_guid stateG1 (constClient responseG1) responseG1).1 rfl).2).2 rfl,
   (((identity_is_response_guid stateG1 (constClient responseG1) responseG1).2 rfl).2).2 rfl⟩

/-! ## Create -/

/-- C4, the code at the failing input: Create of "Group A" (enabled, accounts
["acct1"]) against the response with `ResourceGuid` "G1", flag 1, actor "alice"
and time 1631234567890 succeeds and stores the identity "G1", the name, the
type, the actor and enabled = true, but the `d.Set` of `last_updated` is
refused (an `int` for a `TypeString` attribute), so `last_updated` is still
unset. -/
theorem create_scenario_last_updated_unset :
    responseG1Stamped.Data.Props.LastUpdated = 1631234567890 ∧
    ((ResourceData.plan {} configGroupA).Set "last_updated"
      (.int responseG1Stamped.Data.Props.LastUpdated)).2 ≠ none ∧
    (resourceLaceworkResourceGroupLwAccountCreate (ResourceData.plan {} configGroupA)
      (constClient responseG1Stamped)).2 = none ∧
    (resourceLaceworkResourceGroupLwAccountCreate (ResourceData.plan {} configGroupA)
      (constClient responseG1Stamped)).1.id = "G1" ∧
    (resourceLaceworkResourceGroupLwAccountCreate (ResourceData.plan {} configGroupA)
      (constClient responseG1Stamped)).1.name = "Group A" ∧
    (resourceLaceworkResourceGroupLwAccountCreate (ResourceData.plan {} configGroupA)
      (constClient responseG1Stamped)).1.enabled = true ∧
    (resourceLaceworkResourceGroupLwAccountCreate (ResourceData.plan {} configGroupA)
      (constClient responseG1Stamped)).1.type_ = "LW_ACCOUNT" ∧
    (resourceLaceworkResourceGroupLwAccountCreate (ResourceData.plan {} configGroupA)
      (constClient responseG1Stamped)).1.updated_by = "alice" ∧
    (resourceLaceworkResourceGroupLwAccountCreate (ResourceData.plan {} configGroupA)
      (constClient responseG1Stamped)).1.last_updated = "" := by
  decide

/-! ## Read -/

/-- C5, the code at the failing input: Read of the state with identity "G1"
against the record with name "Group A", flag 1, accounts ["acct1"], actor
"alice" and time 1631234567890 succeeds and overwrites the name, the type, the
actor, the accounts and `enabled`, but the `d.Set` of `last_updated` is refused
(an `int` for a `TypeString` attribute), so `last_updated` is still unset. -/
theorem read_scenario_last_updated_unset :
    stateG1.last_updated = "" ∧
    responseG1Stamped.Data.Props.LastUpdated = 1631234567890 ∧
    (stateG1.Set "last_updated" (.int responseG1Stamped.Data.Props.LastUpdated)).2 ≠ none ∧
    (resourceLaceworkResourceGroupLwAccountRead stateG1 (constClient responseG1Stamped)).2 = none ∧
    (resourceLaceworkResourceGroupLwAccountRead stateG1 (constClient responseG1Stamped)).1.name = "Group A" ∧
    (resourceLaceworkResourceGroupLwAccountRead stateG1 (constClient responseG1Stamped)).1.type_ = "LW_ACCOUNT" ∧
    (resourceLaceworkResourceGroupLwAccountRead stateG1 (constClient responseG1Stamped)).1.updated_by = "alice" ∧
    (resourceLaceworkResourceGroupLwAccountRead stateG1 (constClient responseG1Stamped)).1.accounts = ["acct1"] ∧
    (resourceLaceworkResourceGroupLwAccountRead stateG1 (constClient responseG1Stamped)).1.enabled = true ∧
    (resourceLaceworkResourceGroupLwAccountRead stateG1 (constClient responseG1Stamped)).1.last_updated = "" := by
  decide

/-- C6, as stated, fails: against the fixed store `redirectingStore` a first
Read of the state with identity "G1" succeeds, a second Read succeeds too, and
the state after the second Read differs from the state after the first (name
"B" instead of "A"). -/
theorem read_twice_counterexample :
    (resourceLaceworkResourceGroupLwAccountRead stateG1 redirectingStore).2 = none ∧
    (resourceLaceworkResourceGroupLwAccountRead stateG1 redirectingStore).1.name = "A" ∧
    (resourceLaceworkResourceGroupLwAccountRead
      (resourceLaceworkResourceGroupLwAccountRead stateG1 redirectingStore).1
      redirectingStore).2 = none ∧
    (resourceLaceworkResourceGroupLwAccountRead
      (resourceLaceworkResourceGroupLwAccountRead stateG1 redirectingStore).1
      redirectingStore).1.name = "B" ∧
    (resourceLaceworkResourceGroupLwAccountRead
      (resourceLaceworkResourceGroupLwAccountRead stateG1 redirectingStore).1
      redirectingStore).1
      ≠ (resourceLaceworkResourceGroupLwAccountRead stateG1 redirectingStore).1 := by
  decide

/-- C6, amended: for a fixed store that answers the first Read with `r` and
that, asked for the `ResourceGuid` of `r`, answers `r` again (as it does
whenever the record held under an identifier carries that identifier), a
second Read succeeds and yields the same local state as the first. -/
theorem read_twice_same_state (d : ResourceData) (lacework : Client)
    (r : LwAccountResourceGroupResponse)
    (h : lacework.GetLwAccount d.id = .ok r)
    (hg : lacework.GetLwAccount r.Data.ResourceGuid = .ok r) :
    resourceLaceworkResourceGroupLwAccountRead
      (resourceLaceworkResourceGroupLwAccountRead d lacework).1 lacework
      = resourceLaceworkResourceGroupLwAccountRead d lacework := by
  rw [read_ok d lacework r h]
  rw [read_ok _ lacework r hg]

/-- C6, amended, at the store that holds `responseG1` under "G1". -/
theorem read_twice_same_state_witness :
    (constClient responseG1).GetLwAccount stateG1.id = .ok responseG1 ∧
    (constClient responseG1).GetLwAccount responseG1.Data.ResourceGuid = .ok responseG1 ∧
    resourceLaceworkResourceGroupLwAccountRead
      (resourceLaceworkResourceGroupLwAccountRead stateG1 (constClient responseG1)).1
      (constClient responseG1)
      = resourceLaceworkResourceGroupLwAccountRead stateG1 (constClient responseG1) :=
  ⟨rfl, rfl, read_twice_same_state stateG1 (constClient responseG1) responseG1 rfl rfl⟩

/-! ## The payload of Create and Update -/

/-- C7: resource data whose `enabled` is the boolean `b` is encoded by Create
and by Update into a payload whose flag is 1 when `b` is true and 0 when it is
false; decoding that flag with `== 1` gives `b` back, and so does a Create or
an Update against a backend that echoes the payload. -/
theorem enabled_flag_round_trip (b : Bool) (d : ResourceData) :
    (createData { d with enabled := b }).Enabled = (if b then 1 else 0) ∧
    (updateData { d with enabled := b }).Enabled = (if b then 1 else 0) ∧
    decide ((createData { d with enabled := b }).Enabled = 1) = b ∧
    decide ((updateData { d with enabled := b }).Enabled = 1) = b ∧
    (resourceLaceworkResourceGroupLwAccountCreate { d with enabled := b } echoClient).1.enabled
      = b ∧
    (resourceLaceworkResourceGroupLwAccountUpdate { d with enabled := b } echoClient).1.enabled
      = b := by
  have hc := createData_enabled { d with enabled := b }
  have hu := updateData_enabled { d with enabled := b }
  refine ⟨hc, hu, ?_, ?_, ?_, ?_⟩
  · rw [hc]; cases b <;> simp
  · rw [hu]; cases b <;> simp
  · rw [create_ok _ echoClient ⟨createData { d with enabled := b }⟩ rfl]
    simp only [hc]
    cases b <;> simp
  · rw [update_ok _ echoClient ⟨updateData { d with enabled := b }⟩ rfl]
    simp only [hu]
    cases b <;> simp

/-- C8: the payload that Update builds carries the identity of the local state
as `ResourceGuid` and takes `Name`, `Description`, `LwAccounts` and the flag
from the attributes `name`, `description`, `accounts` and `enabled` of the
resource data; nothing else is filled in, so the `Computed` attributes, which
hold what the backend returned, do not reach it.  Update calls the adapter
with this payload and no other. -/
theorem update_payload_from_configuration (d : ResourceData) :
    updateData d =
      { ResourceGuid := d.id
        Name := d.name
        Type_ := LwAccountResourceGroup
        Enabled := if d.enabled then 1 else 0
        Props := { Description := d.description, LwAccounts := d.accounts } } ∧
    updateData d =
      updateData { id := d.id, name := d.name, enabled := d.enabled,
                   description := d.description, accounts := d.accounts } ∧
    ∀ lacework : Client,
      resourceLaceworkResourceGroupLwAccountUpdate d lacework =
        resourceLaceworkResourceGroupLwAccountUpdate d
          { lacework with
            UpdateLwAccount := fun data =>
              if data = updateData d then lacework.UpdateLwAccount data
              else .error ⟨"not called"⟩ } := by
  refine ⟨?_, ?_, ?_⟩
  · cases h : d.enabled <;> simp [updateData, NewResourceGroup, castAttributeToStringSlice, h]
  · cases h : d.enabled <;> simp [updateData, NewResourceGroup, castAttributeToStringSlice, h]
  · intro lacework
    simp [resourceLaceworkResourceGroupLwAccountUpdate]

/-! ## The attribute `is_default` -/

/-- C9, the code at the failing input: Read of a state with identity "G1"
against a response for a default group succeeds, and `is_default` of the state
is still false although the response says true. -/
theorem read_does_not_set_is_default :
    stateG1.is_default = false ∧
    responseDefault.Data.IsDefault = true ∧
    (resourceLaceworkResourceGroupLwAccountRead stateG1 (constClient responseDefault)).2
      = none ∧
    (resourceLaceworkResourceGroupLwAccountRead stateG1 (constClient responseDefault)).1.is_default
      = false := by
  decide

/-! ## White space around the entries of `accounts` -/

theorem map_eq_self_iff (f : String → String) (l : List String) :
    l.map f = l ↔ ∀ a ∈ l, f a = a := by
  induction l with
  | nil => simp
  | cons x xs ih => simp [ih]

/-- C10, as stated, fails: for the configured accounts [" acct1 ", "acct2"] the
payload of Create and the payload of Update carry [" acct1 ", "acct2"], not
["acct1", "acct2"], which is what the `StateFunc` of the schema makes of
them. -/
theorem accounts_sent_trimmed_counterexample :
    dataPaddedAccounts.accounts = [" acct1 ", "acct2"] ∧
    dataPaddedAccounts.accounts.map accountsStateFunc = ["acct1", "acct2"] ∧
    (createData dataPaddedAccounts).Props.LwAccounts = [" acct1 ", "acct2"] ∧
    (createData dataPaddedAccounts).Props.LwAccounts ≠ ["acct1", "acct2"] ∧
    (updateData dataPaddedAccounts).Props.LwAccounts = [" acct1 ", "acct2"] ∧
    (updateData dataPaddedAccounts).Props.LwAccounts ≠ ["acct1", "acct2"] := by
  decide

/-- C10, amended: the `LwAccounts` of the payload of Create and of Update are
the configured entries exactly as `d.Get` returns them, in the same order,
with their surrounding white space; they are the entries with
`strings.TrimSpace` applied exactly when no configured entry has surrounding
white space. -/
theorem accounts_sent_as_configured (d : ResourceData) :
    (createData d).Props.LwAccounts = d.accounts ∧
    (updateData d).Props.LwAccounts = d.accounts ∧
    ((createData d).Props.LwAccounts = d.accounts.map TrimSpace
      ↔ ∀ a ∈ d.accounts, TrimSpace a = a) ∧
    ((updateData d).Props.LwAccounts = d.accounts.map TrimSpace
      ↔ ∀ a ∈ d.accounts, TrimSpace a = a) := by
  rw [createData_accounts, updateData_accounts]
  have h := map_eq_self_iff TrimSpace d.accounts
  exact ⟨rfl, rfl, ⟨fun e => h.mp e.symm, fun e => (h.mpr e).symm⟩,
    ⟨fun e => h.mp e.symm, fun e => (h.mpr e).symm⟩⟩

end Lacework
